import Mathlib

/-!
# Verification of the Beaune NDVI notebook

A shallow embedding of `src/notebooks/notebook.ipynb`.  The notebook is a
linear sequence of cells that query Google Earth Engine for Landsat-9 and
Sentinel-2 scenes, compute NDVI rasters by per-pixel band arithmetic, render
map layers from fixed visualization-parameter dictionaries, and fill a
six-row pandas table of wine-vintage scores inside a per-year loop.

Modelling choices:
* an image is a function from band name and pixel coordinate to a rational
  sample value; Earth Engine's lazy server-side band operations (`select`,
  `subtract`, `add`, `divide`, `clip`, the scale factors) are embedded as
  the corresponding pure functions on these images;
* the external engine is an explicit environment `Env` of responses: the
  scene catalog behind `ee.ImageCollection(name)` (with the per-scene
  metadata the notebook sorts and filters on) and the server-side
  `reduceRegion` mean response (an `Option ℚ`, `none` standing for a null
  reducer result);
* Python-level failure (calling into a null image, rounding a null mean) is
  embedded as `Option`: a `none` stops the straight-line execution, and no
  local handler exists anywhere, so the stop propagates;
* the per-year loop threads an explicit `LoopState` (pandas table, rendered
  layers, printed lines, the `images` dictionary) and records the imagery
  API operations it issues as a trace of `ApiOp`s, and all externally
  visible actions of the notebook as a list of `Effect`s.
-/

set_option autoImplicit false

namespace BeauneNDVI

/-! ## Pixels, images and band arithmetic -/

/-- A pixel coordinate (longitude, latitude), as used by the notebook's
geometries. -/
abbrev Pixel := ℚ × ℚ

/-- A multi-band raster image: band name → pixel → sample value. -/
abbrev Image := String → Pixel → ℚ

/-- A single-band image as produced by `ee.Image.select`: Earth Engine
results keep a band name, which the notebook's `mean_ndvi.get("B8")` lookup
depends on. -/
structure BandImage where
  bandName : String
  pix : Pixel → ℚ

/-- Embeds `image.select('b')` from the notebook: pick one named band. -/
def select (img : Image) (b : String) : BandImage := ⟨b, img b⟩

/-- Embeds `a.subtract(b)`: per-pixel difference; the result keeps the first
operand's band name (Earth Engine semantics, relied on by `get("B8")`). -/
def BandImage.subtract (a b : BandImage) : BandImage :=
  ⟨a.bandName, fun p => a.pix p - b.pix p⟩

/-- Embeds `a.add(b)`: per-pixel sum. -/
def BandImage.add (a b : BandImage) : BandImage :=
  ⟨a.bandName, fun p => a.pix p + b.pix p⟩

/-- Embeds `a.divide(b)`: per-pixel quotient. -/
def BandImage.divide (a b : BandImage) : BandImage :=
  ⟨a.bandName, fun p => a.pix p / b.pix p⟩

/-- Embeds `a.rename('n')`: change the band name, keep the raster. -/
def BandImage.rename (a : BandImage) (n : String) : BandImage := ⟨n, a.pix⟩

/-- Embeds `image.divide(10000)` applied to a whole image (the Sentinel scaling
step): every band is divided by the constant. -/
def divideImage (img : Image) (c : ℚ) : Image := fun b p => img b p / c

/-! ## Geometry: the study area near Beaune -/

/-- Membership in `clip_area`, the rectangular polygon
`[[4.647364477,46.9062950917],[5.1135967769,46.9062950917],…]` from the
notebook. -/
def inClipArea (p : Pixel) : Bool :=
  decide ((4647364477 : ℚ) / 1000000000 ≤ p.1) &&
  decide (p.1 ≤ (51135967769 : ℚ) / 10000000000) &&
  decide ((469062950917 : ℚ) / 10000000000 ≤ p.2) &&
  decide (p.2 ≤ (471193160686 : ℚ) / 10000000000)

/-- Embeds `study_area = ee.Geometry.Point([4.744932, 47.040085])`. -/
def studyArea : Pixel := ((4744932 : ℚ) / 1000000, (47040085 : ℚ) / 1000000)

/-- Embeds `.clip(clip_area)`: keep samples inside the polygon, mask (here: zero)
outside. -/
def clipImage (img : Image) : Image := fun b p => if inClipArea p then img b p else 0

/-! ## Scenes, collections and the collection operations -/

/-- One satellite scene as served by the engine: acquisition date and the
metadata properties the notebook reads (`CLOUD_COVER`,
`HIGH_PROBA_CLOUDS_PERCENTAGE`, `CLOUD_COVERAGE_ASSESSMENT`,
`IMAGE_DATE`), whether its footprint contains the study-area point, and its
raster bands. -/
structure Scene where
  date : String
  cloudCover : ℚ
  highProbaClouds : ℚ
  cloudCoverageAssessment : ℚ
  inStudyArea : Bool
  bands : Image

/-- Lexicographic strict order on character lists; ISO `YYYY-MM-DD` date
strings compare chronologically under it. -/
def charListLt : List Char → List Char → Bool
  | [], [] => false
  | [], _ :: _ => true
  | _ :: _, [] => false
  | a :: as, b :: bs =>
    if a.toNat < b.toNat then true
    else if b.toNat < a.toNat then false
    else charListLt as bs

/-- Strict string order used for date comparisons. -/
def strLt (a b : String) : Bool := charListLt a.data b.data

/-- Reflexive string order used for date comparisons. -/
def strLe (a b : String) : Bool := a == b || strLt a b

/-- Embeds `.filterDate(d1, d2)`: keep scenes with `d1 ≤ date < d2` (Earth Engine's
start-inclusive, end-exclusive range). -/
def filterDate (c : List Scene) (d1 d2 : String) : List Scene :=
  c.filter fun s => strLe d1 s.date && strLt s.date d2

/-- Embeds `.filterBounds(study_area)`: keep scenes whose footprint contains the
study-area point. -/
def filterBounds (c : List Scene) : List Scene := c.filter (·.inStudyArea)

/-- The metadata field named by the sort key passed to `.sort(...)`. -/
def keyMetric (key : String) (s : Scene) : ℚ :=
  if key == "CLOUD_COVER" then s.cloudCover
  else if key == "HIGH_PROBA_CLOUDS_PERCENTAGE" then s.highProbaClouds
  else 0

/-- Ordered insertion for the ascending metadata sort. -/
def insertAsc (m : Scene → ℚ) (s : Scene) : List Scene → List Scene
  | [] => [s]
  | t :: ts => if m s ≤ m t then s :: t :: ts else t :: insertAsc m s ts

/-- Embeds `.sort(key)`: ascending sort of a collection by a metadata property. -/
def sortByKey (key : String) : List Scene → List Scene
  | [] => []
  | s :: ss => insertAsc (keyMetric key) s (sortByKey key ss)

/-! ## The external engine as an environment of responses -/

/-- The responses the notebook receives from the external engine: the scene
catalog behind each `ee.ImageCollection(name)`, and the server-side
`reduceRegion(mean, clip_area, scale 10)` response for a raster (`none` is
a null reducer result). -/
structure Env where
  catalog : String → List Scene
  meanValue : (Pixel → ℚ) → Option ℚ

/-! ## NDVI computations (cells 16, 28 and the loop of cell 37) -/

/-- Embeds `landsat_ndvi`: `SR_B5`/`SR_B4` band math of cell 16, renamed
`'Landsat NDVI'`. -/
def landsatNdviOf (img : Image) : BandImage :=
  let nir := select img "SR_B5"
  let red := select img "SR_B4"
  ((nir.subtract red).divide (nir.add red)).rename "Landsat NDVI"

/-- Embeds `sentinel_ndvi`: `B8`/`B4` band math of cell 28, renamed
`'Sentinel NDVI'`. -/
def sentinelNdviOf (img : Image) : BandImage :=
  let nir := select img "B8"
  let red := select img "B4"
  ((nir.subtract red).divide (nir.add red)).rename "Sentinel NDVI"

/-- Embeds `ndvi` inside the year loop of cell 37: `B8`/`B4` band math, not
renamed (so the result band is still called `B8`). -/
def yearNdviOf (img : Image) : BandImage :=
  let nir := select img "B8"
  let red := select img "B4"
  (nir.subtract red).divide (nir.add red)

/-! ## Landsat scale factors (cell 9) -/

/-- The band-name pattern `'SR_B.'` of `image.select('SR_B.')`: `SR_B`
followed by exactly one character. -/
def matchesOptical (b : String) : Bool :=
  b.data.take 4 == "SR_B".data && b.data.length == 5

/-- The band-name pattern `'ST_B.*'`: `ST_B` followed by anything. -/
def matchesThermal (b : String) : Bool := b.data.take 4 == "ST_B".data

/-- Embeds `applyScaleFactors` from cell 9: optical bands are rescaled by
`× 0.0000275 − 0.2`, thermal bands by `× 0.00341802 + 149.0`, and the
rescaled bands overwrite the originals (`addBands(…, None, True)`). -/
def applyScaleFactors (image : Image) : Image := fun b p =>
  if matchesOptical b then image b p * (275 / 10000000) + (-2 / 10)
  else if matchesThermal b then image b p * (341802 / 100000000) + 149
  else image b p

/-! ## The 2022 Landsat and Sentinel sections (cells 4–30) -/

/-- Embeds `study_date = ('2022-08-01', '2022-08-31')`. -/
def studyDate : String × String := ("2022-08-01", "2022-08-31")

/-- The Landsat query chain of cell 4: filter by date, filter by bounds,
sort by `CLOUD_COVER`, take the first scene. -/
def landsatQuery (env : Env) : Option Scene :=
  (sortByKey "CLOUD_COVER"
    (filterBounds
      (filterDate (env.catalog "LANDSAT/LC09/C02/T1_L2") studyDate.1 studyDate.2))).head?

/-- Embeds `image_2022`: the first (least-cloudy) Landsat scene, clipped. -/
def image2022 (env : Env) : Option Image :=
  (landsatQuery env).map fun s => clipImage s.bands

/-- Embeds `landsat_8_data_2022 = applyScaleFactors(image_2022)`. -/
def landsat8Data2022 (env : Env) : Option Image :=
  (image2022 env).map applyScaleFactors

/-- Embeds `landsat_ndvi`, computed from `image_2022` (the raw clipped image). -/
def landsatNdvi (env : Env) : Option BandImage :=
  (image2022 env).map landsatNdviOf

/-- The Sentinel query chain of cell 21: filter by date, filter by bounds,
sort by `HIGH_PROBA_CLOUDS_PERCENTAGE`, take the first scene. -/
def sentinelQuery (env : Env) : Option Scene :=
  (sortByKey "HIGH_PROBA_CLOUDS_PERCENTAGE"
    (filterBounds
      (filterDate (env.catalog "COPERNICUS/S2_SR_HARMONIZED") studyDate.1 studyDate.2))).head?

/-- Embeds `sentinel_2022`: the first (least-cloudy) Sentinel scene, clipped. -/
def sentinel2022 (env : Env) : Option Image :=
  (sentinelQuery env).map fun s => clipImage s.bands

/-- Embeds `sentinel_2022_data = sentinel_2022.divide(10000)`. -/
def sentinel2022Data (env : Env) : Option Image :=
  (sentinel2022 env).map fun i => divideImage i 10000

/-- Embeds `sentinel_ndvi`, computed from the scaled `sentinel_2022_data`. -/
def sentinelNdvi (env : Env) : Option BandImage :=
  (sentinel2022Data env).map sentinelNdviOf

/-! ## Visualization-parameter dictionaries (cells 11 and 25) -/

/-- The `'properties'` sub-dictionary of a visualization dictionary: band
list, min/max stretch, color palette (each present only in some of the
notebook's dictionaries). -/
structure VisParams where
  bands : Option (List String)
  min : ℚ
  max : ℚ
  palette : Option (List String)
deriving DecidableEq, Repr

/-- A named visualization dictionary `{'name': …, 'properties': {…}}`. -/
structure VisLayer where
  name : String
  properties : VisParams
deriving DecidableEq, Repr

/-- Embeds `landsat_nat` from cell 11. -/
def landsat_nat : VisLayer :=
  { name := "Natural Color (4,3,2)",
    properties := { bands := some ["SR_B4", "SR_B3", "SR_B2"], min := 0, max := 3 / 10, palette := none } }

/-- Embeds `landsat_IR` from cell 11. -/
def landsat_IR : VisLayer :=
  { name := "False Color (5,4,3)",
    properties := { bands := some ["SR_B5", "SR_B4", "SR_B3"], min := 0, max := 5 / 10, palette := none } }

/-- Embeds `landsat_veg` from cell 11. -/
def landsat_veg : VisLayer :=
  { name := "Vegatation Visualization (6,5,4)",
    properties := { bands := some ["SR_B6", "SR_B5", "SR_B4"], min := 0, max := 7 / 10, palette := none } }

/-- Embeds `vis_ndvi` from cell 11, with its 17-color palette. -/
def vis_ndvi : VisLayer :=
  { name := "NDVI",
    properties :=
      { bands := none, min := -2 / 10, max := 1,
        palette := some
          ["FFFFFF", "CE7E45", "DF923D", "F1B555", "FCD163", "99B718", "74A901",
           "66A000", "529400", "3E8601", "207401", "056201", "004C00", "023B01",
           "012E01", "011D01", "011301"] } }

/-- Embeds `sentinel_nat` from cell 25. -/
def sentinel_nat : VisLayer :=
  { name := "Natural Color (4,3,2)",
    properties := { bands := some ["B4", "B3", "B2"], min := 0, max := 3 / 10, palette := none } }

/-- Embeds `sentinel_IR` from cell 25. -/
def sentinel_IR : VisLayer :=
  { name := "False Color (8,4,3)",
    properties := { bands := some ["B8", "B4", "B3"], min := 0, max := 5 / 10, palette := none } }

/-- The `(name, vis_params)` arguments of the three `add_ee_layer` calls on
`burgundy_map` (cells 13 and 18), in execution order. -/
def burgundyMapCalls : List (String × VisParams) :=
  [("2022 " ++ landsat_IR.name, landsat_IR.properties),
   ("2022 " ++ landsat_nat.name, landsat_nat.properties),
   ("Landsat NDVI", vis_ndvi.properties)]

/-- The `(name, vis_params)` arguments of the two `add_ee_layer` calls on
`sentinel_map` (cell 26). -/
def sentinelMapCalls : List (String × VisParams) :=
  [(sentinel_nat.name, sentinel_nat.properties),
   (sentinel_IR.name, sentinel_IR.properties)]

/-- The `(name, vis_params)` arguments of the two `ee_tile_layer` calls for
the split map (cell 30). -/
def splitMapCalls : List (String × VisParams) :=
  [("Landsat NDVI", vis_ndvi.properties),
   ("Sentinel NDVI", vis_ndvi.properties)]

/-! ## The wine-scores table (cell 36) -/

/-- One row of the `wine_scores` DataFrame: `(Year, Wine Score, Mean NDVI,
Photo Date)`.  Missing scores/means are `none` (pandas `NaN`/`None`). -/
structure WineRow where
  year : ℤ
  wineScore : Option ℚ
  meanNdvi : Option ℚ
  photoDate : String
deriving DecidableEq, Repr

/-- The hand-entered `scores` table of cell 36. -/
def wine_scores : List WineRow :=
  [⟨2017, some 93, none, ""⟩,
   ⟨2018, some 92, none, ""⟩,
   ⟨2019, some 95, none, ""⟩,
   ⟨2020, some 94, none, ""⟩,
   ⟨2021, none, none, ""⟩,
   ⟨2022, none, none, ""⟩]

/-- Embeds `wine_scores.loc[wine_scores['Year'] == year, 'Mean NDVI'] = v`: set the
Mean NDVI cell of every row whose Year matches. -/
def setMeanNdvi (t : List WineRow) (y : ℤ) (v : Option ℚ) : List WineRow :=
  t.map fun r => if r.year = y then { r with meanNdvi := v } else r

/-- Embeds `wine_scores.loc[wine_scores['Year'] == year, 'Photo Date'] = d`: set the
Photo Date cell of every row whose Year matches. -/
def setPhotoDate (t : List WineRow) (y : ℤ) (d : String) : List WineRow :=
  t.map fun r => if r.year = y then { r with photoDate := d } else r

/-! ## The per-year loop (cell 37) -/

/-- Embeds `years = [2017, 2018, 2019, 2020, 2021, 2022]`. -/
def years : List ℤ := [2017, 2018, 2019, 2020, 2021, 2022]

/-- The imagery-API operations issued by the loop body, at the granularity
of the spec: one constructor per server-side transformation. -/
inductive ApiOp
  | filterDateOp (d1 d2 : String)
  | filterBoundsOp
  | sortOp (key : String)
  | firstOp
  | clipOp
  | scaleOp (c : ℚ)
  | ndviOp
  | reduceMeanOp
deriving DecidableEq, Repr

/-- A short human-readable label for an operation. -/
def opLabel : ApiOp → String
  | .filterDateOp d1 d2 => "filterDate " ++ d1 ++ " " ++ d2
  | .filterBoundsOp => "filterBounds"
  | .sortOp k => "sort " ++ k
  | .firstOp => "first"
  | .clipOp => "clip"
  | .scaleOp _ => "divide bands"
  | .ndviOp => "ndvi band math"
  | .reduceMeanOp => "reduceRegion mean"

/-- Every externally visible action a notebook cell can take.  `fileWrite`
and `retryCall` exist in the vocabulary so that their absence from the
notebook's trace is a statement about the program, not about the type. -/
inductive Effect
  | apiRequest (desc : String)
  | renderLayer (name : String)
  | renderColorbar
  | displayOutput
  | consoleOutput (line : String)
  | memoryWrite (target : String)
  | fileWrite (path : String)
  | retryCall (desc : String)
deriving DecidableEq, Repr

/-- Is this effect a write to persistent storage? -/
def Effect.isFileWrite : Effect → Bool
  | .fileWrite _ => true
  | _ => false

/-- Is this effect a retried request? -/
def Effect.isRetryCall : Effect → Bool
  | .retryCall _ => true
  | _ => false

/-- The effect of issuing one imagery-API operation. -/
def opEffect (o : ApiOp) : Effect := Effect.apiRequest (opLabel o)

/-- The mutable state the loop threads: the pandas table, the layers added
to `ndvi_map` (name and vis params), the printed lines, and the `images`
dictionary `{str(year): {'mean ndvi': …, 'image': …}}`. -/
structure LoopState where
  table : List WineRow
  layers : List (String × VisParams)
  printed : List String
  imagesDict : List (String × (Option ℚ × BandImage))

/-- The state just before the loop: the freshly built table, empty map,
nothing printed, empty `images` dictionary. -/
def initialLoopState : LoopState := ⟨wine_scores, [], [], []⟩

/-- Python's `round(q, 2)`, on exact rationals. -/
def round2 (q : ℚ) : ℚ := (round (q * 100) : ℤ) / 100

/-- The date range of the loop's `filterDate` call:
`f'{str(year)}{study_date[0][4:]}'` and `f'{str(year)}{study_date[1][4:]}'`. -/
def yearDates (year : ℤ) : String × String :=
  (toString year ++ studyDate.1.drop 4, toString year ++ studyDate.2.drop 4)

/-- The collection the loop's query chain produces for a year, before
`.first()`: filter by date, filter by bounds, sort by cloud percentage. -/
def yearCollection (env : Env) (year : ℤ) : List Scene :=
  sortByKey "HIGH_PROBA_CLOUDS_PERCENTAGE"
    (filterBounds
      (filterDate (env.catalog "COPERNICUS/S2_SR_HARMONIZED") (yearDates year).1 (yearDates year).2))

/-- The operations issued up to and including `.first()`. -/
def queryTrace (year : ℤ) : List ApiOp :=
  [ApiOp.filterDateOp (yearDates year).1 (yearDates year).2,
   ApiOp.filterBoundsOp,
   ApiOp.sortOp "HIGH_PROBA_CLOUDS_PERCENTAGE",
   ApiOp.firstOp]

/-- The full operation sequence of one successful loop iteration. -/
def fullTrace (year : ℤ) : List ApiOp :=
  queryTrace year ++ [ApiOp.clipOp, ApiOp.scaleOp 10000, ApiOp.ndviOp, ApiOp.reduceMeanOp]

/-- The outcome of one loop iteration: the API operations issued, the
effects performed, the state afterwards, and whether the iteration ran to
completion (`ok = false` means an uncaught error stopped the notebook). -/
structure YearStep where
  trace : List ApiOp
  effects : List Effect
  state : LoopState
  ok : Bool

/-- Embeds `mean_final` for a scene: the loop computes NDVI on the scaled clipped
image, asks the engine for the region mean (`reduceRegion` returns a
dictionary keyed by the result's band name, here still `B8`), reads the
`"B8"` entry and materializes it with `getInfo` (`none` when null). -/
def yearMean (env : Env) (scene : Scene) : Option ℚ :=
  let ndvi := yearNdviOf (divideImage (clipImage scene.bands) 10000)
  (List.lookup "B8" [(ndvi.bandName, env.meanValue ndvi.pix)]).join

/-- One iteration of `for year in years` (cell 37).  An empty filtered
collection makes `.first()` null and the iteration dies on first use of the
null image; a null `reduceRegion` mean is written into the table as-is and
then kills the iteration at `round(mean_final, 2)`.  No local code catches
either failure. -/
def yearBody (env : Env) (st : LoopState) (year : ℤ) : YearStep :=
  match (yearCollection env year).head? with
  | none =>
      { trace := queryTrace year,
        effects := (queryTrace year).map opEffect,
        state := st, ok := false }
  | some scene =>
      let image := clipImage scene.bands
      let image_data := divideImage image 10000
      let ndvi := yearNdviOf image_data
      let mean_final : Option ℚ := yearMean env scene
      let date := scene.date
      let table2 := setPhotoDate (setMeanNdvi st.table year mean_final) year date
      match mean_final with
      | none =>
          { trace := fullTrace year,
            effects := (fullTrace year).map opEffect ++
              [Effect.apiRequest "image_props", Effect.memoryWrite "wine_scores"],
            state := { st with table := table2 }, ok := false }
      | some m =>
          let layerName := date ++ " - Mean NDVI: " ++ toString (round2 m)
          let cloudLine := "Cloud coverage for the best photo from August " ++ toString year ++
            " was " ++ toString (round2 scene.cloudCoverageAssessment) ++ "%"
          { trace := fullTrace year,
            effects := (fullTrace year).map opEffect ++
              [Effect.apiRequest "image_props", Effect.memoryWrite "wine_scores",
               Effect.renderLayer layerName, Effect.consoleOutput cloudLine,
               Effect.memoryWrite "images"],
            state :=
              { table := table2,
                layers := st.layers ++ [(layerName, vis_ndvi.properties)],
                printed := st.printed ++ [cloudLine],
                imagesDict := st.imagesDict ++ [(toString year, (mean_final, ndvi))] },
            ok := true }

/-- The result of running the loop over a list of years. -/
structure RunOut where
  state : LoopState
  ok : Bool
  effects : List Effect

/-- Run the loop over the given years, stopping at the first iteration that
dies (an uncaught error aborts the straight-line notebook). -/
def runYears (env : Env) : List ℤ → LoopState → RunOut
  | [], st => ⟨st, true, []⟩
  | y :: ys, st =>
    let step := yearBody env st y
    if step.ok then
      let rest := runYears env ys step.state
      ⟨rest.state, rest.ok, step.effects ++ rest.effects⟩
    else ⟨step.state, false, step.effects⟩

/-- The whole loop of cell 37, from the freshly built table. -/
def runLoop (env : Env) : RunOut := runYears env years initialLoopState

/-! ## The full notebook's effect trace (cells 2–41) -/

/-- Effects of the Landsat query chain of cell 4. -/
def landsatQueryEffects : List Effect :=
  [Effect.apiRequest "ImageCollection LANDSAT/LC09/C02/T1_L2",
   Effect.apiRequest "filterDate 2022-08-01 2022-08-31",
   Effect.apiRequest "filterBounds",
   Effect.apiRequest "sort CLOUD_COVER",
   Effect.apiRequest "first",
   Effect.apiRequest "clip"]

/-- Effects of the Sentinel query chain of cell 21 (including the
`divide(10000)` scaling). -/
def sentinelQueryEffects : List Effect :=
  [Effect.apiRequest "ImageCollection COPERNICUS/S2_SR_HARMONIZED",
   Effect.apiRequest "filterDate 2022-08-01 2022-08-31",
   Effect.apiRequest "filterBounds",
   Effect.apiRequest "sort HIGH_PROBA_CLOUDS_PERCENTAGE",
   Effect.apiRequest "first",
   Effect.apiRequest "clip",
   Effect.apiRequest "divide 10000"]

/-- Effects of the cells from the Sentinel metadata print (cell 23) to the
end of the notebook, given the Sentinel scene.  Runs the loop and, when the
loop survives, the two trailing display cells. -/
def sentinelTailEffects (env : Env) (ss : Scene) : List Effect :=
  [Effect.apiRequest "image_props",
   Effect.consoleOutput ("The clearest Sentinel photo during the 2022 harvest season for our region was taken on " ++ ss.date),
   Effect.renderLayer sentinel_nat.name,
   Effect.renderLayer sentinel_IR.name,
   Effect.displayOutput,
   Effect.apiRequest "ndvi band math",
   Effect.renderLayer "Landsat NDVI",
   Effect.renderLayer "Sentinel NDVI",
   Effect.renderColorbar,
   Effect.displayOutput,
   Effect.memoryWrite "wine_scores",
   Effect.displayOutput] ++
  (runLoop env).effects ++
  (if (runLoop env).ok then
    [Effect.renderColorbar, Effect.displayOutput, Effect.displayOutput]
  else [])

/-- Effects of the cells from the Landsat metadata print (cell 6) onwards,
given the Landsat scene. -/
def landsatTailEffects (env : Env) (ls : Scene) : List Effect :=
  [Effect.apiRequest "image_props",
   Effect.consoleOutput ("The clearest Landsat-9 photo during the 2022 harvest season for our region was taken on " ++ ls.date),
   Effect.apiRequest "applyScaleFactors",
   Effect.renderLayer ("2022 " ++ landsat_IR.name),
   Effect.renderLayer ("2022 " ++ landsat_nat.name),
   Effect.displayOutput,
   Effect.apiRequest "ndvi band math",
   Effect.renderLayer "Landsat NDVI",
   Effect.renderColorbar,
   Effect.displayOutput] ++
  sentinelQueryEffects ++
  (match sentinelQuery env with
   | none => [Effect.apiRequest "image_props"]
   | some ss => sentinelTailEffects env ss)

/-- Every externally visible action of the straight-line cell sequence, in
order.  A query that finds no scene leaves a null image and the notebook
dies at the next metadata request, cutting the trace short. -/
def notebookEffects (env : Env) : List Effect :=
  landsatQueryEffects ++
  (match landsatQuery env with
   | none => [Effect.apiRequest "image_props"]
   | some ls => landsatTailEffects env ls)

/-! ## Auxiliary definitions for the claims -/

/-- The Landsat section's two deliverables: the rescaled image used for the
natural/false-color layers, and the NDVI layer.  The scale step is a
parameter so that applying and omitting `applyScaleFactors` can be
compared; the notebook itself instantiates it with `applyScaleFactors`. -/
structure LandsatOut where
  dataLayers : Option Image
  ndviLayer : Option BandImage

/-- Cells 9–18 with the scale step abstracted: `landsat_8_data_2022` is the
scaled image, while `landsat_ndvi` reads its bands from `image_2022`
directly (cell 16). -/
def landsatSection (env : Env) (scaleFn : Image → Image) : LandsatOut :=
  { dataLayers := (image2022 env).map scaleFn,
    ndviLayer := (image2022 env).map landsatNdviOf }

/-- A concrete test image with `SR_B5 = 5` and every other band `3`. -/
def imgC9 : Image := fun b _ => if b == "SR_B5" then 5 else 3

/-- A concrete test image with `B8 = 3` and every other band `1`. -/
def imgC8 : Image := fun b _ => if b == "B8" then 3 else 1

/-- A concrete test pixel. -/
def p0 : Pixel := (0, 0)

/-- A concrete cloud-free scene from August 2017 over the study area. -/
def sceneA : Scene :=
  { date := "2017-08-15", cloudCover := 0, highProbaClouds := 0,
    cloudCoverageAssessment := 3, inStudyArea := true, bands := fun _ _ => 1 }

/-- A concrete environment whose Sentinel catalog holds exactly `sceneA`
and whose region-mean response is `3/5`. -/
def envWine : Env :=
  { catalog := fun n => if n == "COPERNICUS/S2_SR_HARMONIZED" then [sceneA] else [],
    meanValue := fun _ => some (3 / 5) }

/-- A concrete environment with an empty catalog: every collection query
comes back empty. -/
def envEmpty : Env :=
  { catalog := fun _ => [], meanValue := fun _ => none }

/-- A concrete environment whose Sentinel catalog holds `sceneA` but whose
`reduceRegion` mean response is null. -/
def envNullMean : Env :=
  { catalog := fun n => if n == "COPERNICUS/S2_SR_HARMONIZED" then [sceneA] else [],
    meanValue := fun _ => none }

/-- A concrete environment whose Landsat catalog holds `sceneA` but whose
Sentinel catalog is empty; it agrees with `envEmpty` on every response the
year loop consumes while differing elsewhere. -/
def envLandsatOnly : Env :=
  { catalog := fun n => if n == "LANDSAT/LC09/C02/T1_L2" then [sceneA] else [],
    meanValue := fun _ => none }

/-- The columns of the wine-scores table the loop never assigns to:
`(Year, Wine Score)` of every row, in order. -/
def staticCols (t : List WineRow) : List (ℤ × Option ℚ) :=
  t.map fun r => (r.year, r.wineScore)

/-- Does a rendered layer carry exactly the declared `vis_ndvi` parameter
dictionary? -/
def visOk (c : String × VisParams) : Bool := decide (c.2 = vis_ndvi.properties)

/-- An effect is innocuous when it neither writes persistent storage nor
retries a request. -/
def effectOk (e : Effect) : Bool := !e.isFileWrite && !e.isRetryCall

/-- Fusing the two `.loc` assignments of cell 37: updating Mean NDVI and
then Photo Date for a year rewrites exactly the matching rows' two cells. -/
theorem setBoth_eq_map (t : List WineRow) (y : ℤ) (v : Option ℚ) (d : String) :
    setPhotoDate (setMeanNdvi t y v) y d
      = t.map fun r => if r.year = y then { r with meanNdvi := v, photoDate := d } else r := by
  simp only [setMeanNdvi, setPhotoDate, List.map_map]
  apply List.map_congr_left
  intro r _
  by_cases h : r.year = y
  · simp [Function.comp, h]
  · simp [Function.comp, h]

/-- An iteration that dies aborts the whole remaining loop: `runYears`
returns that iteration's state and effects and runs no further year. -/
theorem runYears_halt (env : Env) (ys : List ℤ) (st : LoopState) (y : ℤ)
    (hok : (yearBody env st y).ok = false) :
    runYears env (y :: ys) st =
      ⟨(yearBody env st y).state, false, (yearBody env st y).effects⟩ := by
  simp only [runYears, hok, Bool.false_eq_true, if_false]

/-- The `.loc` assignments never touch the Year and Wine Score columns. -/
theorem staticCols_setBoth (t : List WineRow) (y : ℤ) (v : Option ℚ) (d : String) :
    staticCols (setPhotoDate (setMeanNdvi t y v) y d) = staticCols t := by
  rw [setBoth_eq_map]
  simp only [staticCols, List.map_map]
  apply List.map_congr_left
  intro r _
  by_cases h : r.year = y
  · simp [Function.comp, h]
  · simp [Function.comp, h]

/-- One loop iteration preserves the Year and Wine Score columns. -/
theorem yearBody_staticCols (env : Env) (st : LoopState) (y : ℤ) :
    staticCols (yearBody env st y).state.table = staticCols st.table := by
  unfold yearBody
  cases hs : (yearCollection env y).head? with
  | none => rfl
  | some scene =>
    dsimp only
    cases hm : yearMean env scene with
    | none => exact staticCols_setBoth st.table y none scene.date
    | some m => exact staticCols_setBoth st.table y (some m) scene.date

/-- The whole loop preserves the Year and Wine Score columns. -/
theorem runYears_staticCols (env : Env) (ys : List ℤ) (st : LoopState) :
    staticCols (runYears env ys st).state.table = staticCols st.table := by
  induction ys generalizing st with
  | nil => rfl
  | cons y ys ih =>
    by_cases hok : (yearBody env st y).ok
    · simp only [runYears, hok, if_true]
      rw [ih, yearBody_staticCols]
    · simp only [runYears, hok, if_false, Bool.false_eq_true]
      exact yearBody_staticCols env st y

/-- One loop iteration only ever appends layers rendered with the declared
`vis_ndvi` parameters. -/
theorem yearBody_layersAll (env : Env) (st : LoopState) (y : ℤ) :
    ((yearBody env st y).state.layers.all visOk) = st.layers.all visOk := by
  unfold yearBody
  cases hs : (yearCollection env y).head? with
  | none => rfl
  | some scene =>
    dsimp only
    cases hm : yearMean env scene with
    | none => rfl
    | some m => simp [List.all_append, visOk]

/-- The whole loop only ever appends layers rendered with the declared
`vis_ndvi` parameters. -/
theorem runYears_layersAll (env : Env) (ys : List ℤ) (st : LoopState) :
    ((runYears env ys st).state.layers.all visOk) = st.layers.all visOk := by
  induction ys generalizing st with
  | nil => rfl
  | cons y ys ih =>
    by_cases hok : (yearBody env st y).ok
    · simp only [runYears, hok, if_true]
      rw [ih, yearBody_layersAll]
    · simp only [runYears, hok, if_false, Bool.false_eq_true]
      exact yearBody_layersAll env st y

/-- Every effect of one loop iteration is innocuous: an API request, a
render, a console line or an in-memory write. -/
theorem yearBody_effectsAll (env : Env) (st : LoopState) (y : ℤ) :
    ((yearBody env st y).effects.all effectOk) = true := by
  unfold yearBody
  cases hs : (yearCollection env y).head? with
  | none => rfl
  | some scene =>
    dsimp only
    cases hm : yearMean env scene with
    | none => rfl
    | some m => rfl

/-- Every effect of the whole loop is innocuous. -/
theorem runYears_effectsAll (env : Env) (ys : List ℤ) (st : LoopState) :
    ((runYears env ys st).effects.all effectOk) = true := by
  induction ys generalizing st with
  | nil => rfl
  | cons y ys ih =>
    by_cases hok : (yearBody env st y).ok
    · simp only [runYears, hok, if_true]
      rw [List.all_append, yearBody_effectsAll, ih]
      rfl
    · simp only [runYears, hok, if_false, Bool.false_eq_true]
      exact yearBody_effectsAll env st y

/-- Two environments that serve the same Sentinel catalog and the same
region-mean responses make every loop iteration behave identically. -/
theorem yearBody_congr (e1 e2 : Env)
    (hc : e1.catalog "COPERNICUS/S2_SR_HARMONIZED" = e2.catalog "COPERNICUS/S2_SR_HARMONIZED")
    (hm : e1.meanValue = e2.meanValue) (st : LoopState) (y : ℤ) :
    yearBody e1 st y = yearBody e2 st y := by
  unfold yearBody yearMean yearCollection
  simp only [hc, hm]

/-- Two environments that serve the same Sentinel catalog and the same
region-mean responses make the whole loop behave identically. -/
theorem runYears_congr (e1 e2 : Env)
    (hc : e1.catalog "COPERNICUS/S2_SR_HARMONIZED" = e2.catalog "COPERNICUS/S2_SR_HARMONIZED")
    (hm : e1.meanValue = e2.meanValue) (ys : List ℤ) (st : LoopState) :
    runYears e1 ys st = runYears e2 ys st := by
  induction ys generalizing st with
  | nil => rfl
  | cons y ys ih =>
    simp only [runYears, yearBody_congr e1 e2 hc hm st y, ih]

/-! ## Claims -/

/-- C1: every NDVI raster the notebook computes — the Landsat layer
(cell 16), the Sentinel layer (cell 28) and the per-year NDVI (cell 37) —
is per-pixel `(NIR − Red) / (NIR + Red)` on its selected near-infrared and
red bands: the computed raster is `subtract(NIR, Red)` divided by
`add(NIR, Red)`. -/
theorem c1_ndvi_formula (img : Image) (p : Pixel) :
    (landsatNdviOf img).pix p
      = (img "SR_B5" p - img "SR_B4" p) / (img "SR_B5" p + img "SR_B4" p)
  ∧ (sentinelNdviOf img).pix p
      = (img "B8" p - img "B4" p) / (img "B8" p + img "B4" p)
  ∧ (yearNdviOf img).pix p
      = (img "B8" p - img "B4" p) / (img "B8" p + img "B4" p) :=
  ⟨rfl, rfl, rfl⟩

/-- C8: dividing every band by the positive constant 10000 (the Sentinel
scaling step of cell 37) leaves the per-year NDVI raster unchanged at every
pixel where `NIR + Red ≠ 0`. -/
theorem c8_scaling_no_effect (img : Image) (p : Pixel)
    (_h : img "B8" p + img "B4" p ≠ 0) :
    (yearNdviOf (divideImage img 10000)).pix p = (yearNdviOf img).pix p := by
  show (img "B8" p / 10000 - img "B4" p / 10000) / (img "B8" p / 10000 + img "B4" p / 10000)
     = (img "B8" p - img "B4" p) / (img "B8" p + img "B4" p)
  rw [div_sub_div_same, div_add_div_same, div_div_div_cancel_right₀]
  norm_num

/-- Witness for C8 at the concrete image `imgC8` and pixel `p0`. -/
theorem c8_scaling_no_effect_witness :
    (imgC8 "B8" p0 + imgC8 "B4" p0 ≠ 0)
  ∧ (yearNdviOf (divideImage imgC8 10000)).pix p0 = (yearNdviOf imgC8).pix p0 :=
  ⟨by show (3 : ℚ) + 1 ≠ 0; norm_num,
   c8_scaling_no_effect imgC8 p0 (by show (3 : ℚ) + 1 ≠ 0; norm_num)⟩

/-- C9: the Landsat NDVI layer is computed from the raw clipped
`image_2022` (bands `SR_B5`, `SR_B4`), not from the rescaled
`landsat_8_data_2022`; substituting any scale step — in particular applying
or omitting `applyScaleFactors` — leaves the displayed Landsat NDVI
unchanged, even though rescaling would change the NDVI values (third
conjunct, at a concrete image). -/
theorem c9_landsat_ndvi_unscaled (env : Env) (f : Image → Image) :
    (landsatSection env f).ndviLayer = landsatNdvi env
  ∧ (landsatSection env applyScaleFactors).ndviLayer
      = (landsatSection env (fun i => i)).ndviLayer
  ∧ (landsatNdviOf imgC9).pix p0 ≠ (landsatNdviOf (applyScaleFactors imgC9)).pix p0 := by
  refine ⟨rfl, rfl, ?_⟩
  show ((5 : ℚ) - 3) / (5 + 3)
    ≠ ((5 * (275 / 10000000) + (-2 / 10)) - (3 * (275 / 10000000) + (-2 / 10)))
      / ((5 * (275 / 10000000) + (-2 / 10)) + (3 * (275 / 10000000) + (-2 / 10)))
  norm_num

/-- C10: one iteration of the year loop either leaves the wine-scores table
untouched (when the iteration dies before the `.loc` assignments) or
rewrites exactly the Mean NDVI and Photo Date cells of the rows whose Year
equals the loop year, leaving Year and Wine Score of every row, and every
other row entirely, unchanged. -/
theorem c10_table_frame (env : Env) (st : LoopState) (y : ℤ) :
    (yearBody env st y).state.table = st.table
  ∨ ∃ v d, (yearBody env st y).state.table
      = st.table.map fun r => if r.year = y then { r with meanNdvi := v, photoDate := d } else r := by
  unfold yearBody
  cases hs : (yearCollection env y).head? with
  | none => exact Or.inl rfl
  | some scene =>
    dsimp only
    cases hm : yearMean env scene with
    | none => exact Or.inr ⟨none, scene.date, setBoth_eq_map st.table y none scene.date⟩
    | some m => exact Or.inr ⟨some m, scene.date, setBoth_eq_map st.table y (some m) scene.date⟩

/-- C2: every year the loop processes to completion issues exactly
filter-by-date, filter-by-bounds, sort-by-cloud-percentage,
take-first-result, clip-to-polygon, scale-bands, subtract/divide-bands
(NDVI) and reduce-region-to-a-mean, in that order, with no other imagery
transformation interposed. -/
theorem c2_pipeline_order (env : Env) (st : LoopState) (y : ℤ)
    (h : (yearBody env st y).ok = true) :
    (yearBody env st y).trace =
      [ApiOp.filterDateOp (yearDates y).1 (yearDates y).2,
       ApiOp.filterBoundsOp,
       ApiOp.sortOp "HIGH_PROBA_CLOUDS_PERCENTAGE",
       ApiOp.firstOp,
       ApiOp.clipOp,
       ApiOp.scaleOp 10000,
       ApiOp.ndviOp,
       ApiOp.reduceMeanOp] := by
  unfold yearBody at h ⊢
  cases hs : (yearCollection env y).head? with
  | none => rw [hs] at h; exact absurd h (by simp)
  | some scene =>
    rw [hs] at h
    dsimp only at h ⊢
    cases hm : yearMean env scene with
    | none => rw [hm] at h; exact absurd h (by simp)
    | some m => rfl

/-- Witness for C2: in `envWine` the 2017 iteration succeeds and issues the
eight operations in order. -/
theorem c2_pipeline_order_witness :
    (yearBody envWine initialLoopState 2017).ok = true
  ∧ (yearBody envWine initialLoopState 2017).trace =
      [ApiOp.filterDateOp (yearDates 2017).1 (yearDates 2017).2,
       ApiOp.filterBoundsOp,
       ApiOp.sortOp "HIGH_PROBA_CLOUDS_PERCENTAGE",
       ApiOp.firstOp,
       ApiOp.clipOp,
       ApiOp.scaleOp 10000,
       ApiOp.ndviOp,
       ApiOp.reduceMeanOp] :=
  ⟨rfl, c2_pipeline_order envWine initialLoopState 2017 rfl⟩

/-- C3: whenever an external call fails, no local code catches or handles
the failure and no input validation precedes the failing call.  Three
failure modes, one per conjunct: (1) an empty filtered collection for a
loop year kills the iteration right after the four query operations, with
the state untouched, and aborts the rest of the loop; (2) a null
`reduceRegion` result is written into the table unvalidated, and the
iteration then dies at `round(mean_final, 2)`, aborting the rest of the
loop; (3) a failed 2022 Landsat query (cell 4) leaves a null `image_2022`
and the notebook dies at the very next metadata request (cell 6), running
no further cell. -/
theorem c3_error_propagates (env : Env) (st : LoopState) (y : ℤ) (ys : List ℤ) :
    (yearCollection env y = [] →
       (yearBody env st y).ok = false
     ∧ (yearBody env st y).state = st
     ∧ (yearBody env st y).trace = queryTrace y
     ∧ runYears env (y :: ys) st = ⟨st, false, (queryTrace y).map opEffect⟩)
  ∧ (∀ scene, (yearCollection env y).head? = some scene →
       yearMean env scene = none →
       (yearBody env st y).ok = false
     ∧ (yearBody env st y).state.table
         = setPhotoDate (setMeanNdvi st.table y none) y scene.date
     ∧ runYears env (y :: ys) st =
         ⟨(yearBody env st y).state, false, (yearBody env st y).effects⟩)
  ∧ (landsatQuery env = none →
       notebookEffects env = landsatQueryEffects ++ [Effect.apiRequest "image_props"]) := by
  refine ⟨?_, ?_, ?_⟩
  · intro h
    have hh : (yearCollection env y).head? = none := by rw [h]; rfl
    have hb : yearBody env st y =
        { trace := queryTrace y, effects := (queryTrace y).map opEffect,
          state := st, ok := false } := by
      unfold yearBody
      rw [hh]
    refine ⟨by rw [hb], by rw [hb], by rw [hb], ?_⟩
    simp only [runYears, hb, Bool.false_eq_true, if_false]
  · intro scene hs hm
    have hb : yearBody env st y =
        { trace := fullTrace y,
          effects := (fullTrace y).map opEffect ++
            [Effect.apiRequest "image_props", Effect.memoryWrite "wine_scores"],
          state := { st with table := setPhotoDate (setMeanNdvi st.table y none) y scene.date },
          ok := false } := by
      unfold yearBody
      rw [hs]
      dsimp only
      rw [hm]
    exact ⟨by rw [hb], by rw [hb], runYears_halt env ys st y (by rw [hb])⟩
  · intro h
    unfold notebookEffects
    rw [h]

/-- Witness for C3 at concrete environments: `envEmpty` exercises the
empty-collection and failed-Landsat-query modes, `envNullMean` the
null-reducer-result mode. -/
theorem c3_error_propagates_witness :
    (yearCollection envEmpty 2017 = []
     ∧ ((yearBody envEmpty initialLoopState 2017).ok = false
        ∧ (yearBody envEmpty initialLoopState 2017).state = initialLoopState
        ∧ (yearBody envEmpty initialLoopState 2017).trace = queryTrace 2017
        ∧ runYears envEmpty [2017, 2018] initialLoopState =
            ⟨initialLoopState, false, (queryTrace 2017).map opEffect⟩))
  ∧ ((yearCollection envNullMean 2017).head? = some sceneA
     ∧ yearMean envNullMean sceneA = none
     ∧ ((yearBody envNullMean initialLoopState 2017).ok = false
        ∧ (yearBody envNullMean initialLoopState 2017).state.table
            = setPhotoDate (setMeanNdvi initialLoopState.table 2017 none) 2017 sceneA.date
        ∧ runYears envNullMean [2017, 2018] initialLoopState =
            ⟨(yearBody envNullMean initialLoopState 2017).state, false,
             (yearBody envNullMean initialLoopState 2017).effects⟩))
  ∧ (landsatQuery envEmpty = none
     ∧ notebookEffects envEmpty = landsatQueryEffects ++ [Effect.apiRequest "image_props"]) :=
  ⟨⟨rfl, (c3_error_propagates envEmpty initialLoopState 2017 [2018]).1 rfl⟩,
   ⟨rfl, rfl, (c3_error_propagates envNullMean initialLoopState 2017 [2018]).2.1 sceneA rfl rfl⟩,
   ⟨rfl, (c3_error_propagates envEmpty initialLoopState 2017 [2018]).2.2 rfl⟩⟩

/-- C4 (counterexample): the wine-scores table is not static.  In `envWine`
the 2017 iteration runs and the `.loc` assignments of cell 37 change the
table's contents after construction. -/
theorem c4_static_counterexample : (runLoop envWine).state.table ≠ wine_scores := by
  have h0 : (runLoop envWine).state.table
      = setPhotoDate (setMeanNdvi wine_scores 2017 (some (3 / 5))) 2017 "2017-08-15" := rfl
  rw [h0, setBoth_eq_map]
  simp [wine_scores]

/-- C4 (amended): the table has exactly six rows of shape
`(Year, Wine Score, Mean NDVI, Photo Date)`; the Year and Wine Score
columns and the row count are static under the whole loop, while the loop
fills only Mean NDVI and Photo Date. -/
theorem c4_wine_table (env : Env) :
    wine_scores.length = 6
  ∧ (runLoop env).state.table.length = 6
  ∧ staticCols (runLoop env).state.table = staticCols wine_scores := by
  have hst : staticCols (runLoop env).state.table = staticCols wine_scores :=
    runYears_staticCols env years initialLoopState
  refine ⟨rfl, ?_, hst⟩
  have hlen := congrArg List.length hst
  simpa [staticCols] using hlen

/-- C5: every display-parameter dictionary reaches the rendering calls
verbatim: the three `burgundy_map` layers, the two `sentinel_map` layers
and the two split-map tile layers carry exactly the declared dictionaries,
and every layer the year loop adds to `ndvi_map` carries exactly
`vis_ndvi['properties']`. -/
theorem c5_vis_params_verbatim (env : Env) :
    burgundyMapCalls.map Prod.snd =
      [landsat_IR.properties, landsat_nat.properties, vis_ndvi.properties]
  ∧ sentinelMapCalls.map Prod.snd = [sentinel_nat.properties, sentinel_IR.properties]
  ∧ splitMapCalls.map Prod.snd = [vis_ndvi.properties, vis_ndvi.properties]
  ∧ ((runLoop env).state.layers.all visOk) = true := by
  refine ⟨rfl, rfl, rfl, ?_⟩
  rw [runLoop, runYears_layersAll]
  rfl

/-- C6: no step of the straight-line cell sequence writes to persistent
storage or retries a request: every effect in the notebook's trace is an
API request, a render, a console line or an in-memory write. -/
theorem c6_no_writes_no_retries (env : Env) :
    ((notebookEffects env).all effectOk) = true := by
  unfold notebookEffects
  cases hl : landsatQuery env with
  | none => rfl
  | some ls =>
    unfold landsatTailEffects
    cases hsq : sentinelQuery env with
    | none => rfl
    | some ss =>
      unfold sentinelTailEffects
      simp only [List.all_append]
      rw [runLoop, runYears_effectsAll]
      cases hok : (runYears env years initialLoopState).ok <;> rfl

/-- C7: the notebook is deterministic with respect to the external engine:
two environments serving identical responses to the loop's queries (the
Sentinel catalog and the region means) yield the same six-row table and the
same rendered layer list, whatever else they differ in. -/
theorem c7_deterministic (e1 e2 : Env)
    (hc : e1.catalog "COPERNICUS/S2_SR_HARMONIZED" = e2.catalog "COPERNICUS/S2_SR_HARMONIZED")
    (hm : e1.meanValue = e2.meanValue) :
    (runLoop e1).state.table = (runLoop e2).state.table
  ∧ (runLoop e1).state.layers = (runLoop e2).state.layers := by
  have h := runYears_congr e1 e2 hc hm years initialLoopState
  rw [runLoop, runLoop, h]
  exact ⟨rfl, rfl⟩

/-- Witness for C7: `envEmpty` and `envLandsatOnly` differ (one carries a
Landsat scene) yet serve the loop identical responses, so the loop's table
and layers agree. -/
theorem c7_deterministic_witness :
    envEmpty.catalog "COPERNICUS/S2_SR_HARMONIZED"
      = envLandsatOnly.catalog "COPERNICUS/S2_SR_HARMONIZED"
  ∧ envEmpty.meanValue = envLandsatOnly.meanValue
  ∧ ((runLoop envEmpty).state.table = (runLoop envLandsatOnly).state.table
     ∧ (runLoop envEmpty).state.layers = (runLoop envLandsatOnly).state.layers) :=
  ⟨rfl, rfl, c7_deterministic envEmpty envLandsatOnly rfl rfl⟩

end BeauneNDVI
